import Mathlib

/-!
Verification of the DBMigrate core: a shallow embedding of the transfer
engine (`migrate_table`), the integrity validator (`validate_migration`,
`calculate_table_checksum`), the migration orchestrator
(`ExecutionAgent.run` with its retry policy), and the workflow state
machine (`start_workflow`, `approve_workflow`, `reset_workflow`) of
`db_operations.py`, `agents/execution_agent.py` and `app.py`.

Modelling conventions:
- A table is its list of rows in physical storage order; a cell is the
  text rendering of the value (`CAST(col AS TEXT)`), with `none` for SQL
  NULL.
- The MD5 digest is an uninterpreted parameter `md5 : String → String`:
  every property proved or refuted here is about the string aggregate fed
  to the digest, so it holds for (resp. fails for) any digest function.
- SQL `ORDER BY first-column` is modelled by a stable insertion sort on
  the first cell (ascending, NULLS LAST, text order by code point); ties
  keep physical storage order, matching the fact that SQL leaves the
  relative order of ties unspecified and scan-order dependent.
- Database calls that can raise (psycopg2 errors) are modelled by
  `Except String` outcomes supplied as parameters at the points where the
  Python code has a `try`/`except` around them.
-/

namespace DBMigrate

/-- A cell: `none` is SQL NULL, `some s` the text rendering of the value. -/
abbrev Cell := Option String

/-- A row is its list of cells in column order. -/
abbrev Row := List Cell

/-- A table is its list of rows in physical storage order. -/
abbrev Table := List Row

/-- Code-point comparison of text, the model of the SQL text ordering used
by `ORDER BY` (C collation). Structurally recursive so that concrete
comparisons compute. -/
def charsLE : List Char → List Char → Bool
  | [], _ => true
  | _ :: _, [] => false
  | a :: as, b :: bs => if a < b then true else if b < a then false else charsLE as bs

/-- Text `<=` on strings via `charsLE`. -/
def strLE (a b : String) : Bool := charsLE a.data b.data

/-- The ordering relation on strings used for `STRING_AGG(... ORDER BY row_data)`. -/
def strLEP (a b : String) : Prop := strLE a b = true

instance (a b : String) : Decidable (strLEP a b) :=
  inferInstanceAs (Decidable (_ = _))

/-- SQL `ORDER BY` on one cell, ascending: values in text order first,
NULLs last (PostgreSQL default `NULLS LAST`). -/
def cellLE : Cell → Cell → Bool
  | none, none => true
  | none, some _ => false
  | some _, none => true
  | some a, some b => strLE a b

/-- The first cell of a row (`column_names[0]`, the pagination / sampling key). -/
def firstCell : Row → Cell
  | [] => none
  | c :: _ => c

/-- Row ordering by the first column, the model of
`ORDER BY {column_names[0]}` in the checksum sampling subquery. -/
def rowLE (r₁ r₂ : Row) : Prop := cellLE (firstCell r₁) (firstCell r₂) = true

instance (r₁ r₂ : Row) : Decidable (rowLE r₁ r₂) :=
  inferInstanceAs (Decidable (_ = _))

/-- `get_row_count`: `SELECT COUNT(*)`. -/
def get_row_count (tbl : Table) : Nat := tbl.length

/-- `get_sample_data`: `SELECT * ... LIMIT limit` — the first `limit` rows
in physical order. -/
def get_sample_data (tbl : Table) (limit : Nat) : Table := tbl.take limit

/-- The per-row string of `calculate_table_checksum`: the concatenation
`COALESCE(CAST(col AS TEXT), 'NULL') || ...` over the columns in order,
rendering a NULL cell as the literal text `NULL`. -/
def rowString (r : Row) : String := String.join (r.map (fun c => c.getD "NULL"))

/-- The row-strings of the checksum subquery: the table sorted by first
column (`ORDER BY column_names[0]`), truncated to `sample_size` rows
(`LIMIT %s`), each row rendered by `rowString`. -/
def sampledRowStrings (tbl : Table) (sample_size : Nat) : List String :=
  ((List.insertionSort rowLE tbl).take sample_size).map rowString

/-- `calculate_table_checksum`: digest of
`MD5(STRING_AGG(row_data, '' ORDER BY row_data))` over the sampled rows;
`STRING_AGG` over zero rows is NULL, which the Python turns into `''`. -/
def calculate_table_checksum (md5 : String → String) (tbl : Table)
    (sample_size : Nat := 1000) : String :=
  if List.insertionSort strLEP (sampledRowStrings tbl sample_size) = [] then ""
  else md5 (String.join (List.insertionSort strLEP (sampledRowStrings tbl sample_size)))

/-- The result dictionary of `migrate_table` (and of the orchestrator's
retry wrapper, whose failure dictionaries carry no `total_rows` key,
modelled as `0`). -/
structure MigrationResult where
  success : Bool
  total_rows : Nat
  rows_migrated : Nat
  error : Option String := none
deriving DecidableEq, Repr

/-- The batch loop of `migrate_table`:
`while offset < total_rows:` fetch `SELECT * ... ORDER BY first column
LIMIT batch_size OFFSET offset`, break on an empty batch, insert every
fetched row into the destination, `offset += batch_size`.
The source rows are taken in pagination order; since the claims below
never depend on which order the paginated prefix is read in, the physical
list stands for that order. The extra `fuel` argument is an iteration
budget making the recursion structural (so concrete runs compute by
`decide`); `migrate_table` passes `total_rows + 1`, which
`migrateLoop_fuel_stable` proves is never exhausted, since every executed
iteration has a nonempty batch and therefore advances `offset` by
`batch_size ≥ 1`. -/
def migrateLoop (src : Table) (total_rows batch_size : Nat) :
    Nat → Nat → Nat → Table → Nat × Table
  | 0, _, rows_migrated, dest => (rows_migrated, dest)
  | fuel + 1, offset, rows_migrated, dest =>
    if offset < total_rows then
      let batch := (src.drop offset).take batch_size
      if batch = [] then (rows_migrated, dest)
      else migrateLoop src total_rows batch_size fuel (offset + batch_size)
        (rows_migrated + batch.length) (dest ++ batch)
    else (rows_migrated, dest)

/-- `migrate_table` (fault-free execution): count the source rows, cap the
count to `max_rows` when given, create the destination table when absent
(`dest = none` — it starts empty), then run the batch loop. Returns the
result dictionary of the success path together with the destination
table's final contents. -/
def migrate_table (src : Table) (dest : Option Table) (batch_size : Nat := 1000)
    (max_rows : Option Nat := none) : MigrationResult × Table :=
  let total_rows := src.length
  let total_rows := match max_rows with
    | some m => min total_rows m
    | none => total_rows
  let dest0 := dest.getD []
  let lr := migrateLoop src total_rows batch_size (total_rows + 1) 0 0 dest0
  ({ success := true, total_rows := total_rows, rows_migrated := lr.1, error := none }, lr.2)

/-- One recorded check of `validate_migration` with numeric values
(`results['checks']['row_count']`). -/
structure CheckNat where
  source : Nat
  destination : Nat
  is_match : Bool
deriving DecidableEq, Repr

/-- One recorded check with string values (`results['checks']['checksum']`). -/
structure CheckStr where
  source : String
  destination : String
  is_match : Bool
deriving DecidableEq, Repr

/-- The recorded sample-data check (`results['checks']['sample_data']`),
which stores only the sampled row counts and the match flag. -/
structure CheckSample where
  source_count : Nat
  destination_count : Nat
  is_match : Bool
deriving DecidableEq, Repr

/-- The `results['checks']` dictionary: a check key is present exactly
when the code reached its assignment. -/
structure ValidationChecks where
  row_count : Option CheckNat := none
  checksum : Option CheckStr := none
  sample_data : Option CheckSample := none
deriving DecidableEq, Repr

/-- The result dictionary of `validate_migration`. -/
structure ValidationResult where
  checks : ValidationChecks
  validation_passed : Bool
  error : Option String := none
deriving DecidableEq, Repr

/-- The outcomes of the six database operations `validate_migration`
performs, in program order; each can raise (`Except.error`), which in the
Python is caught by the single `try`/`except` wrapping all three checks. -/
structure ValidationEnv where
  source_count : Except String Nat
  dest_count : Except String Nat
  source_checksum : Except String String
  dest_checksum : Except String String
  source_sample : Except String Table
  dest_sample : Except String Table

/-- The fault-free `ValidationEnv` on a concrete table pair: each
operation returns its pure table semantics (`calculate_table_checksum` is
called with its default `sample_size = 1000`, `get_sample_data` with 5). -/
def faultFreeEnv (md5 : String → String) (src dst : Table) : ValidationEnv :=
  { source_count := .ok (get_row_count src),
    dest_count := .ok (get_row_count dst),
    source_checksum := .ok (calculate_table_checksum md5 src 1000),
    dest_checksum := .ok (calculate_table_checksum md5 dst 1000),
    source_sample := .ok (get_sample_data src 5),
    dest_sample := .ok (get_sample_data dst 5) }

/-- `validate_migration`: the three checks run in sequence inside one
`try`; a raising operation jumps to the single `except`, which records
the error at the result level, sets `validation_passed = False`, and
leaves `results['checks']` holding only the checks recorded so far. On
the fault-free path `validation_passed` is the conjunction of the three
match flags. -/
def validate_migration (env : ValidationEnv) : ValidationResult :=
  match env.source_count with
  | .error e => { checks := {}, validation_passed := false, error := some e }
  | .ok source_count =>
  match env.dest_count with
  | .error e => { checks := {}, validation_passed := false, error := some e }
  | .ok dest_count =>
  let row_check : CheckNat :=
    { source := source_count, destination := dest_count,
      is_match := decide (source_count = dest_count) }
  match env.source_checksum with
  | .error e =>
    { checks := { row_count := some row_check }, validation_passed := false, error := some e }
  | .ok source_checksum =>
  match env.dest_checksum with
  | .error e =>
    { checks := { row_count := some row_check }, validation_passed := false, error := some e }
  | .ok dest_checksum =>
  let checksum_check : CheckStr :=
    { source := source_checksum, destination := dest_checksum,
      is_match := decide (source_checksum = dest_checksum) }
  match env.source_sample with
  | .error e =>
    { checks := { row_count := some row_check, checksum := some checksum_check },
      validation_passed := false, error := some e }
  | .ok source_sample =>
  match env.dest_sample with
  | .error e =>
    { checks := { row_count := some row_check, checksum := some checksum_check },
      validation_passed := false, error := some e }
  | .ok dest_sample =>
  let sample_check : CheckSample :=
    { source_count := source_sample.length, destination_count := dest_sample.length,
      is_match := decide (source_sample = dest_sample) }
  { checks := { row_count := some row_check, checksum := some checksum_check,
                sample_data := some sample_check },
    validation_passed := row_check.is_match && checksum_check.is_match && sample_check.is_match,
    error := none }

/-! ### Migration orchestrator (`agents/execution_agent.py`)

The per-table transfer attempts and the per-schema table listing are the
points where `migrate_table` / `get_tables` run against the databases;
they are supplied as outcome parameters. `_log_progress` and the progress
callback are pure bookkeeping in the app (`run_execution` passes a no-op
callback), so the loops below are total. -/

/-- The outcome of one call to `migrate_table` inside the retry loop:
either the call raises, or it returns a result dictionary (whose
`success` flag may be false). -/
inductive AttemptOutcome where
  | raises (msg : String)
  | returns (res : MigrationResult)

/-- `max_retries = 2` in `ExecutionAgent._migrate_table`. -/
def max_retries : Nat := 2

/-- The `for attempt in range(max_retries)` loop of
`ExecutionAgent._migrate_table`, recursing over the list of remaining
attempt indices. Alongside the result it counts the retry log events
(`self._log_progress(..., 'warning')` on a non-final failure) and the
`time.sleep(2)` backoff invocations; in the code these are always emitted
together. A successful result returns immediately; an unsuccessful
result on the final attempt falls out of the loop into the
`Max retries exceeded` dictionary; an exception on the final attempt
returns its error dictionary. -/
def retryLoop (attempts : Nat → AttemptOutcome) :
    List Nat → Nat → Nat → MigrationResult × Nat × Nat
  | [], retry_logs, sleeps =>
    ({ success := false, total_rows := 0, rows_migrated := 0,
       error := some "Max retries exceeded" }, retry_logs, sleeps)
  | attempt :: rest, retry_logs, sleeps =>
    match attempts attempt with
    | .returns res =>
      if res.success then (res, retry_logs, sleeps)
      else if attempt < max_retries - 1 then
        retryLoop attempts rest (retry_logs + 1) (sleeps + 1)
      else retryLoop attempts rest retry_logs sleeps
    | .raises msg =>
      if attempt < max_retries - 1 then
        retryLoop attempts rest (retry_logs + 1) (sleeps + 1)
      else
        ({ success := false, total_rows := 0, rows_migrated := 0, error := some msg },
         retry_logs, sleeps)

/-- `ExecutionAgent._migrate_table`: run the retry loop over attempt
indices `0, ..., max_retries - 1`. -/
def migrateTableWithRetry (attempts : Nat → AttemptOutcome) :
    MigrationResult × Nat × Nat :=
  retryLoop attempts (List.range max_retries) 0 0

/-- One table of a schema as the orchestrator sees it: its name, the
outcome of each `migrate_table` attempt, and the result
`validate_migration` returns for it (that function handles its own
exceptions, so it always returns a result). -/
structure TableJob where
  name : String
  attempts : Nat → AttemptOutcome
  validation : ValidationResult

/-- The result dictionary of `ExecutionAgent._migrate_schema`. -/
structure SchemaResult where
  schema : String
  tables_migrated : List String
  tables_failed : List (String × String)
  validation_results : List ValidationResult
  total_tables : Nat
  successful_tables : Nat
  failed_tables : Nat
  total_rows_migrated : Nat
  error : Option String
deriving DecidableEq, Repr

/-- The initial per-schema result dictionary of `_migrate_schema`. -/
def emptySchemaResult (schema : String) : SchemaResult :=
  { schema := schema, tables_migrated := [], tables_failed := [],
    validation_results := [], total_tables := 0, successful_tables := 0,
    failed_tables := 0, total_rows_migrated := 0, error := none }

/-- One iteration of the per-table loop of `_migrate_schema`: on a
successful transfer record the table as migrated, add its rows, and
record its validation result; otherwise record it as failed with its
error (`'Unknown error'` when the result carries none) and continue. -/
def processTable (schema : String) (acc : SchemaResult) (job : TableJob) : SchemaResult :=
  let mres := (migrateTableWithRetry job.attempts).1
  if mres.success then
    { acc with
      tables_migrated := acc.tables_migrated ++ [schema ++ "." ++ job.name],
      successful_tables := acc.successful_tables + 1,
      total_rows_migrated := acc.total_rows_migrated + mres.rows_migrated,
      validation_results := acc.validation_results ++ [job.validation] }
  else
    { acc with
      tables_failed := acc.tables_failed ++ [(schema ++ "." ++ job.name,
        mres.error.getD "Unknown error")],
      failed_tables := acc.failed_tables + 1 }

/-- `ExecutionAgent._migrate_schema`: list the schema's tables
(`get_tables`, which can raise — its exception is caught by this
function's own `except`, recorded in the result's `error` field, and the
result is returned normally); on a successful listing run the per-table
loop. -/
def ExecutionAgent.migrate_schema (schema : String)
    (listing : Except String (List TableJob)) : SchemaResult :=
  match listing with
  | .error e => { emptySchemaResult schema with error := some e }
  | .ok jobs =>
    jobs.foldl (processTable schema)
      { emptySchemaResult schema with total_tables := jobs.length }

/-- The result dictionary of `ExecutionAgent.run`. -/
structure RunResult where
  status : String
  schemas_migrated : List String
  tables_migrated : List String
  tables_failed : List (String × String)
  validation_results : List ValidationResult
  total_tables : Nat
  successful_tables : Nat
  failed_tables : Nat
  total_rows_migrated : Nat
  error : Option String
deriving DecidableEq, Repr

/-- The initial result dictionary of `ExecutionAgent.run`
(`status = 'running'`). -/
def runInit : RunResult :=
  { status := "running", schemas_migrated := [], tables_migrated := [],
    tables_failed := [], validation_results := [], total_tables := 0,
    successful_tables := 0, failed_tables := 0, total_rows_migrated := 0,
    error := none }

/-- One iteration of the per-schema loop of `ExecutionAgent.run`: append
the schema and merge its lists and statistics into the run result. Note
the schema result's own `error` field is not copied anywhere. -/
def accumulateSchema (acc : RunResult) (sr : SchemaResult) : RunResult :=
  { acc with
    schemas_migrated := acc.schemas_migrated ++ [sr.schema],
    tables_migrated := acc.tables_migrated ++ sr.tables_migrated,
    tables_failed := acc.tables_failed ++ sr.tables_failed,
    validation_results := acc.validation_results ++ sr.validation_results,
    total_tables := acc.total_tables + sr.total_tables,
    successful_tables := acc.successful_tables + sr.successful_tables,
    failed_tables := acc.failed_tables + sr.failed_tables,
    total_rows_migrated := acc.total_rows_migrated + sr.total_rows_migrated }

/-- `ExecutionAgent.run`: migrate each schema, then set the overall
status from the failed-table count (`completed_success` iff zero tables
failed, else `completed_with_errors`), then generate the final report —
still inside the same `try`, so a raising report generation
(`report = Except.error`) lands in the `except`, which overwrites the
status with `failed` and records the error. -/
def ExecutionAgent.run (schemas : List (String × Except String (List TableJob)))
    (report : Except String Unit) : RunResult :=
  let afterLoop := schemas.foldl
    (fun acc s => accumulateSchema acc (ExecutionAgent.migrate_schema s.1 s.2)) runInit
  let statusDetermined :=
    if afterLoop.failed_tables = 0 then { afterLoop with status := "completed_success" }
    else { afterLoop with status := "completed_with_errors" }
  match report with
  | .ok _ => statusDetermined
  | .error e => { statusDetermined with status := "failed", error := some e }

/-! ### Workflow state machine (`app.py`, `gpte_client.py`,
`agents/generation_agent.py`)

The HTTP layer is out of scope; each handler is modelled as a function on
the shared `app_state` record (all handlers mutate it under the single
`state_lock`), returning the new state, the error of a 400 response when
one is returned, and whether a background run was started. -/

/-- The recorded human decision
(`GenerationAgent.set_human_decision`). -/
structure HumanDecision where
  approved : Bool
  reason : String
deriving DecidableEq, Repr

/-- The part of a `GenerationAgent` instance the workflow claims touch:
its `human_decision` attribute (`None` until a decision is recorded). -/
structure GenerationAgentState where
  human_decision : Option HumanDecision
deriving DecidableEq, Repr

/-- `GenerationAgent.set_human_decision`: store the decision on the agent. -/
def GenerationAgent.set_human_decision (ga : GenerationAgentState)
    (approved : Bool) (reason : String) : GenerationAgentState :=
  { ga with human_decision := some { approved := approved, reason := reason } }

/-- One agent entry of `AgentOrchestrator.workflow_state`. -/
structure PhaseState where
  status : String
  result : Option String
deriving DecidableEq, Repr

/-- `AgentOrchestrator.workflow_state`: per-phase status and last result
(result payloads are opaque here). -/
structure OrchestratorState where
  discovery : PhaseState
  validation : PhaseState
  generation : PhaseState
  execution : PhaseState
deriving DecidableEq, Repr

/-- The initial `AgentOrchestrator.workflow_state`: every agent
`{'status': 'pending', 'result': None}`. -/
def initialOrchestratorState : OrchestratorState :=
  { discovery := { status := "pending", result := none },
    validation := { status := "pending", result := none },
    generation := { status := "pending", result := none },
    execution := { status := "pending", result := none } }

/-- `AgentOrchestrator.reset_workflow`: every agent back to pending with
no result (the GPTe conversation reset is outside the modelled state). -/
def AgentOrchestrator.reset_workflow (_o : OrchestratorState) : OrchestratorState :=
  initialOrchestratorState

/-- The `app_state['results']` dictionary of per-phase results (payloads
opaque). -/
structure Results where
  discovery : Option String
  validation : Option String
  generation : Option String
  execution : Option String
deriving DecidableEq, Repr

/-- The cleared `app_state['results']` dictionary: every phase `None`. -/
def emptyResults : Results :=
  { discovery := none, validation := none, generation := none, execution := none }

/-- The shared `app_state` record of `app.py` (configuration payloads and
client handles are opaque and omitted; `generation_agent` is the key
`app_state['generation_agent']`, absent until the generation phase has
run). -/
structure AppState where
  configured : Bool
  workflow_status : String
  current_agent : Option String
  results : Results
  logs : List String
  generation_agent : Option GenerationAgentState
  orchestrator : Option OrchestratorState
deriving DecidableEq, Repr

/-- The 400-responses of the workflow handlers, under the spec's error
names: `alreadyRunning` is the response `'Workflow already running'`
(spec: `AlreadyRunningError`), `workflowState` is
`'Workflow not awaiting approval'` (spec: `WorkflowStateError`). -/
inductive ApiError where
  | notConfigured
  | alreadyRunning
  | workflowState
  | generationAgentMissing
deriving DecidableEq, Repr

/-- The exact error message of each 400 response in `app.py`. -/
def ApiError.message : ApiError → String
  | .notConfigured => "Application not configured. Call /api/configure first."
  | .alreadyRunning => "Workflow already running"
  | .workflowState => "Workflow not awaiting approval"
  | .generationAgentMissing => "Generation agent not available"

/-- `start_workflow` (`POST /api/workflow/start`): reject when not
configured, reject with `AlreadyRunningError` while running; otherwise
set the state to running with cleared results and logs and start the
background workflow thread (the returned flag). -/
def start_workflow (s : AppState) : AppState × Option ApiError × Bool :=
  if s.configured = false then (s, some .notConfigured, false)
  else if s.workflow_status = "running" then (s, some .alreadyRunning, false)
  else
    ({ s with workflow_status := "running", current_agent := some "discovery",
              results := emptyResults, logs := [] },
     none, true)

/-- `approve_workflow` (`POST /api/workflow/approve`): reject with
`WorkflowStateError` unless awaiting approval; reject when no generation
agent is stored; otherwise record the approval on the generation agent,
set the status to running and start the background execution thread (the
returned flag). -/
def approve_workflow (s : AppState) : AppState × Option ApiError × Bool :=
  if s.workflow_status ≠ "awaiting_approval" then (s, some .workflowState, false)
  else
    match s.generation_agent with
    | none => (s, some .generationAgentMissing, false)
    | some ga =>
      ({ s with
          generation_agent := some (GenerationAgent.set_human_decision ga true "Approved via API"),
          workflow_status := "running" },
       none, true)

/-- `deny_workflow` (`POST /api/workflow/deny`): reject unless awaiting
approval; otherwise record the denial on the generation agent when one is
stored and set the status to denied. -/
def deny_workflow (s : AppState) (reason : String) : AppState × Option ApiError :=
  if s.workflow_status ≠ "awaiting_approval" then (s, some .workflowState)
  else
    match s.generation_agent with
    | none => ({ s with workflow_status := "denied" }, none)
    | some ga =>
      ({ s with
          generation_agent := some (GenerationAgent.set_human_decision ga false reason),
          workflow_status := "denied" },
       none)

/-- `reset_workflow` (`POST /api/reset`): from any state set the status
to idle, clear the current agent, the per-phase results and the logs, and
reset the orchestrator when one is stored. The stored generation agent —
and with it any recorded human decision — is left untouched. The returned
flag is the always-successful JSON response. -/
def reset_workflow (s : AppState) : AppState × Bool :=
  ({ s with workflow_status := "idle", current_agent := none,
            results := emptyResults, logs := [],
            orchestrator := s.orchestrator.map AgentOrchestrator.reset_workflow },
   true)

/-! ### Concrete scenario inputs used by witnesses and counterexamples -/

/-- A validation environment in which only the first database operation of
the first check — `get_row_count` on the source — raises, and every later
operation would succeed. -/
def envCountFault : ValidationEnv :=
  { source_count := .error "connection refused",
    dest_count := .ok 1,
    source_checksum := .ok "abc",
    dest_checksum := .ok "abc",
    source_sample := .ok [],
    dest_sample := .ok [] }

/-- A validation environment in which the row-count operations succeed
and the source checksum query raises: the row-count check completes
before the error, the checksum and sample checks do not. -/
def envChecksumFault : ValidationEnv :=
  { source_count := .ok 2,
    dest_count := .ok 2,
    source_checksum := .error "checksum query failed",
    dest_checksum := .ok "abc",
    source_sample := .ok [],
    dest_sample := .ok [] }

/-- A validation environment in which the row-count and checksum
operations succeed and the source sample query raises: the first two
checks complete before the error, the sample check does not. -/
def envSampleFault : ValidationEnv :=
  { source_count := .ok 2,
    dest_count := .ok 3,
    source_checksum := .ok "abc",
    dest_checksum := .ok "abc",
    source_sample := .error "sample query failed",
    dest_sample := .ok [] }

/-- A passed validation result (as `validate_migration` returns on a
fault-free identical pair), used as the recorded validation of successful
tables in orchestrator scenarios. -/
def passedValidation : ValidationResult :=
  { checks := { row_count := some { source := 3, destination := 3, is_match := true },
                checksum := some { source := "abc", destination := "abc", is_match := true },
                sample_data := some { source_count := 3, destination_count := 3, is_match := true } },
    validation_passed := true, error := none }

/-- Attempt outcomes of a transfer that raises on attempt 0 and succeeds
on attempt 1 with 4 rows. -/
def raisesThenSucceeds : Nat → AttemptOutcome := fun attempt =>
  if attempt = 0 then .raises "deadlock detected"
  else .returns { success := true, total_rows := 4, rows_migrated := 4, error := none }

/-- Attempt outcomes of a transfer that raises on every attempt. -/
def alwaysRaises : Nat → AttemptOutcome := fun _ => .raises "relation does not exist"

/-- Attempt outcomes of a transfer that succeeds immediately with 7 rows. -/
def succeedsWith7 : Nat → AttemptOutcome := fun _ =>
  .returns { success := true, total_rows := 7, rows_migrated := 7, error := none }

/-- Table A of the failure-isolation scenario: every attempt raises. -/
def jobA : TableJob := { name := "orders", attempts := alwaysRaises, validation := passedValidation }

/-- Table B of the failure-isolation scenario: succeeds with 7 rows. -/
def jobB : TableJob := { name := "users", attempts := succeedsWith7, validation := passedValidation }

/-- An app state with a configured application and a running workflow. -/
def runningState : AppState :=
  { configured := true, workflow_status := "running",
    current_agent := some "discovery", results := emptyResults, logs := [],
    generation_agent := none, orchestrator := some initialOrchestratorState }

/-- An app state right after a deny decision: the stored generation agent
carries the recorded human decision. -/
def deniedState : AppState :=
  { configured := true, workflow_status := "denied",
    current_agent := some "awaiting_approval",
    results := { discovery := some "d", validation := some "v",
                 generation := some "g", execution := none },
    logs := ["Migration denied by user: too risky"],
    generation_agent := some { human_decision := some { approved := false, reason := "too risky" } },
    orchestrator := some initialOrchestratorState }

/-! ### Helper lemmas -/

/-- `charsLE` is total. -/
theorem charsLE_total : ∀ a b : List Char, charsLE a b = true ∨ charsLE b a = true
  | [], _ => .inl rfl
  | _ :: _, [] => .inr rfl
  | a :: as, b :: bs => by
    by_cases hab : a < b
    · exact .inl (by simp [charsLE, hab])
    · by_cases hba : b < a
      · exact .inr (by simp [charsLE, hba])
      · have h : a = b := le_antisymm (not_lt.mp hba) (not_lt.mp hab)
        subst h
        rcases charsLE_total as bs with h | h
        · exact .inl (by simp [charsLE, h])
        · exact .inr (by simp [charsLE, h])

/-- `charsLE` is transitive. -/
theorem charsLE_trans : ∀ a b c : List Char,
    charsLE a b = true → charsLE b c = true → charsLE a c = true
  | [], _, _, _, _ => rfl
  | _ :: _, [], _, h₁, _ => by simp [charsLE] at h₁
  | _ :: _, _ :: _, [], _, h₂ => by simp [charsLE] at h₂
  | a :: as, b :: bs, c :: cs, h₁, h₂ => by
    simp only [charsLE] at h₁ h₂ ⊢
    by_cases hab : a < b
    · by_cases hbc : b < c
      · simp [lt_trans hab hbc]
      · by_cases hcb : c < b
        · simp [hbc, hcb] at h₂
        · have h : b = c := le_antisymm (not_lt.mp hcb) (not_lt.mp hbc)
          subst h
          simp [hab]
    · by_cases hba : b < a
      · simp [hab, hba] at h₁
      · have h : a = b := le_antisymm (not_lt.mp hba) (not_lt.mp hab)
        subst h
        by_cases hac : a < c
        · simp [hac]
        · by_cases hca : c < a
          · simp [hac, hca] at h₂
          · simp only [lt_irrefl, if_false] at h₁
            simp [hac, hca] at h₂ ⊢
            exact charsLE_trans as bs cs h₁ h₂

/-- `charsLE` is antisymmetric. -/
theorem charsLE_antisymm : ∀ a b : List Char,
    charsLE a b = true → charsLE b a = true → a = b
  | [], [], _, _ => rfl
  | [], _ :: _, _, h₂ => by simp [charsLE] at h₂
  | _ :: _, [], h₁, _ => by simp [charsLE] at h₁
  | a :: as, b :: bs, h₁, h₂ => by
    by_cases hab : a < b
    · have h : ¬ b < a := lt_asymm hab
      simp [charsLE, hab, h] at h₂
    · by_cases hba : b < a
      · simp [charsLE, hab, hba] at h₁
      · have h : a = b := le_antisymm (not_lt.mp hba) (not_lt.mp hab)
        subst h
        simp only [charsLE, lt_irrefl, if_false] at h₁ h₂
        rw [charsLE_antisymm as bs h₁ h₂]

/-- The iteration budget of `migrateLoop` is irrelevant as long as it
exceeds `total_rows - offset`: each executed iteration has a nonempty
batch, hence `batch_size ≥ 1`, hence advances `offset` by at least one.
In particular the budget `total_rows + 1` that `migrate_table` passes is
never exhausted, so `migrateLoop` computes exactly the source's
`while offset < total_rows` loop. -/
theorem migrateLoop_fuel_stable (src : Table) (total_rows batch_size : Nat) :
    ∀ (f₁ f₂ offset rows_migrated : Nat) (dest : Table),
      total_rows - offset < f₁ → total_rows - offset < f₂ →
      migrateLoop src total_rows batch_size f₁ offset rows_migrated dest =
        migrateLoop src total_rows batch_size f₂ offset rows_migrated dest := by
  intro f₁
  induction f₁ with
  | zero => exact fun f₂ offset rm dest h₁ _ => absurd h₁ (Nat.not_lt_zero _)
  | succ g ih =>
    intro f₂ offset rm dest h₁ h₂
    match f₂ with
    | 0 => exact absurd h₂ (Nat.not_lt_zero _)
    | g₂ + 1 =>
      simp only [migrateLoop]
      by_cases hoff : offset < total_rows
      · simp only [hoff, if_true]
        by_cases hb : (src.drop offset).take batch_size = []
        · simp [hb]
        · simp only [hb, if_false]
          have hbs : batch_size ≠ 0 := by
            intro h0
            exact hb (by simp [h0])
          exact ih g₂ (offset + batch_size) _ _ (by omega) (by omega)
      · simp [hoff]

/-! ### Claims -/

/-- Claim C1. The claimed invariant `rows_migrated ≤ total_rows` is
violated by the code: with a capped call (`max_rows` smaller than the
source row count and not aligned to a batch), the batch query still
fetches `LIMIT batch_size` rows, every fetched row is inserted, and the
returned result reports more migrated rows than `total_rows`. Concretely,
a 2-row source with `max_rows = 1` and `batch_size = 1000` returns
`total_rows = 1` but `rows_migrated = 2`. -/
theorem C1_cap_bug :
    (migrate_table [[some "1"], [some "2"]] none 1000 (some 1)).1.total_rows = 1 ∧
    (migrate_table [[some "1"], [some "2"]] none 1000 (some 1)).1.rows_migrated = 2 ∧
    ¬ ((migrate_table [[some "1"], [some "2"]] none 1000 (some 1)).1.rows_migrated ≤
        (migrate_table [[some "1"], [some "2"]] none 1000 (some 1)).1.total_rows) := by
  decide

/-- Claim C2, counterexample. In `validate_migration` all three checks
share a single `try`/`except`: when the very first database operation of
the row-count check raises, the checksum check and the sample check are
never executed (their keys are absent from `results['checks']`), and the
error is recorded on the result as a whole — refuting the claim that each
check still runs and records its result when an earlier check's
execution raises. -/
theorem C2_checks_abort :
    (validate_migration envCountFault).checks.row_count = none ∧
    (validate_migration envCountFault).checks.checksum = none ∧
    (validate_migration envCountFault).checks.sample_data = none ∧
    (validate_migration envCountFault).error = some "connection refused" ∧
    (validate_migration envCountFault).validation_passed = false := by
  decide

/-- Claim C2, amended. All three checks are executed and recorded
whenever none of their database operations raises — in particular a
mismatch (a false `match` flag) in an earlier check never stops the later
checks; but an execution error in any check aborts the remaining checks:
the error is recorded once on the result (not on the failing check),
exactly the checks completed before the failing operation are recorded,
and `validation_passed` is false. The three error clauses cover every
possible first failing operation: one of the two row-count queries (no
check recorded), one of the two checksum queries (only the row-count
check recorded), one of the two sample queries (only the row-count and
checksum checks recorded). -/
theorem C2_single_error_scope (env : ValidationEnv) :
    (∀ n₁ n₂ c₁ c₂ s₁ s₂,
      env.source_count = .ok n₁ → env.dest_count = .ok n₂ →
      env.source_checksum = .ok c₁ → env.dest_checksum = .ok c₂ →
      env.source_sample = .ok s₁ → env.dest_sample = .ok s₂ →
      (validate_migration env).checks.row_count =
        some { source := n₁, destination := n₂, is_match := decide (n₁ = n₂) } ∧
      (validate_migration env).checks.checksum =
        some { source := c₁, destination := c₂, is_match := decide (c₁ = c₂) } ∧
      (validate_migration env).checks.sample_data =
        some { source_count := s₁.length, destination_count := s₂.length,
               is_match := decide (s₁ = s₂) }) ∧
    (∀ e,
      (env.source_count = .error e ∨
        ∃ n₁, env.source_count = .ok n₁ ∧ env.dest_count = .error e) →
      (validate_migration env).checks.row_count = none ∧
      (validate_migration env).checks.checksum = none ∧
      (validate_migration env).checks.sample_data = none ∧
      (validate_migration env).error = some e ∧
      (validate_migration env).validation_passed = false) ∧
    (∀ e n₁ n₂,
      env.source_count = .ok n₁ → env.dest_count = .ok n₂ →
      (env.source_checksum = .error e ∨
        ∃ c₁, env.source_checksum = .ok c₁ ∧ env.dest_checksum = .error e) →
      (validate_migration env).checks.row_count =
        some { source := n₁, destination := n₂, is_match := decide (n₁ = n₂) } ∧
      (validate_migration env).checks.checksum = none ∧
      (validate_migration env).checks.sample_data = none ∧
      (validate_migration env).error = some e ∧
      (validate_migration env).validation_passed = false) ∧
    (∀ e n₁ n₂ c₁ c₂,
      env.source_count = .ok n₁ → env.dest_count = .ok n₂ →
      env.source_checksum = .ok c₁ → env.dest_checksum = .ok c₂ →
      (env.source_sample = .error e ∨
        ∃ s₁, env.source_sample = .ok s₁ ∧ env.dest_sample = .error e) →
      (validate_migration env).checks.row_count =
        some { source := n₁, destination := n₂, is_match := decide (n₁ = n₂) } ∧
      (validate_migration env).checks.checksum =
        some { source := c₁, destination := c₂, is_match := decide (c₁ = c₂) } ∧
      (validate_migration env).checks.sample_data = none ∧
      (validate_migration env).error = some e ∧
      (validate_migration env).validation_passed = false) := by
  obtain ⟨sc, dc, sh, dh, ss, ds⟩ := env
  refine ⟨?_, ?_, ?_, ?_⟩
  · rintro n₁ n₂ c₁ c₂ s₁ s₂ rfl rfl rfl rfl rfl rfl
    simp [validate_migration]
  · rintro e (rfl | ⟨n₁, rfl, rfl⟩) <;> simp [validate_migration]
  · rintro e n₁ n₂ rfl rfl (rfl | ⟨c₁, rfl, rfl⟩) <;> simp [validate_migration]
  · rintro e n₁ n₂ c₁ c₂ rfl rfl rfl rfl (rfl | ⟨s₁, rfl, rfl⟩) <;>
      simp [validate_migration]

/-- Witness for C2's amended theorem: on a fault-free environment over an
empty identical pair all three checks are recorded; on `envCountFault` no
check is recorded; on `envChecksumFault` only the row-count check is
recorded; on `envSampleFault` only the row-count and checksum checks are
recorded — each with the error recorded once on the result and
`validation_passed = false`. -/
theorem C2_single_error_scope_witness :
    ((validate_migration (faultFreeEnv id [] [])).checks.row_count =
        some { source := 0, destination := 0, is_match := decide ((0 : Nat) = 0) } ∧
      (validate_migration (faultFreeEnv id [] [])).checks.checksum =
        some { source := "", destination := "", is_match := decide (("" : String) = "") } ∧
      (validate_migration (faultFreeEnv id [] [])).checks.sample_data =
        some { source_count := List.length ([] : Table),
               destination_count := List.length ([] : Table),
               is_match := decide (([] : Table) = []) }) ∧
    ((validate_migration envCountFault).checks.row_count = none ∧
      (validate_migration envCountFault).checks.checksum = none ∧
      (validate_migration envCountFault).checks.sample_data = none ∧
      (validate_migration envCountFault).error = some "connection refused" ∧
      (validate_migration envCountFault).validation_passed = false) ∧
    ((validate_migration envChecksumFault).checks.row_count =
        some { source := 2, destination := 2, is_match := decide ((2 : Nat) = 2) } ∧
      (validate_migration envChecksumFault).checks.checksum = none ∧
      (validate_migration envChecksumFault).checks.sample_data = none ∧
      (validate_migration envChecksumFault).error = some "checksum query failed" ∧
      (validate_migration envChecksumFault).validation_passed = false) ∧
    ((validate_migration envSampleFault).checks.row_count =
        some { source := 2, destination := 3, is_match := decide ((2 : Nat) = 3) } ∧
      (validate_migration envSampleFault).checks.checksum =
        some { source := "abc", destination := "abc",
               is_match := decide (("abc" : String) = "abc") } ∧
      (validate_migration envSampleFault).checks.sample_data = none ∧
      (validate_migration envSampleFault).error = some "sample query failed" ∧
      (validate_migration envSampleFault).validation_passed = false) :=
  ⟨(C2_single_error_scope (faultFreeEnv id [] [])).1 0 0 "" "" [] []
      rfl rfl rfl rfl rfl rfl,
   (C2_single_error_scope envCountFault).2.1 "connection refused" (.inl rfl),
   (C2_single_error_scope envChecksumFault).2.2.1 "checksum query failed" 2 2
      rfl rfl (.inl rfl),
   (C2_single_error_scope envSampleFault).2.2.2 "sample query failed" 2 3 "abc" "abc"
      rfl rfl rfl rfl (.inl rfl)⟩

/-- Claim C7, counterexample. Checksum equality is not independent of
physical row storage order for every table: when the table holds more
rows than the sample bound and the first column has ties, the
`ORDER BY first-column LIMIT sample_size` subquery can select different
rows for different physical orders, so the sorted aggregate — and hence
the digest, here witnessed with the identity digest — differs. Two rows
sharing first column `a`, sampled with bound 1, give aggregates `ax`
vs. `ay` under swapped physical order. -/
theorem C7_order_dependence :
    ¬ ∀ (md5 : String → String) (sample_size : Nat) (t₁ t₂ : Table),
        t₁.Perm t₂ →
        calculate_table_checksum md5 t₁ sample_size =
          calculate_table_checksum md5 t₂ sample_size := by
  intro h
  have h2 := h id 1
    [[some "a", some "x"], [some "a", some "y"]]
    [[some "a", some "y"], [some "a", some "x"]]
    (by decide)
  exact absurd h2 (by decide)

/-- Claim C7, amended. For every table all of whose rows fit inside the
sample bound (`row count ≤ sample_size` — in particular every table of at
most 1000 rows under the default), permuting the physical storage order
of an identical row set does not change the digest, for any digest
function: the checksum is computed over the lexicographically sorted
aggregate of per-row strings, which is invariant under permutation once
the sampled set is the whole table. -/
theorem C7_checksum_order_invariant (md5 : String → String) (sample_size : Nat)
    (t₁ t₂ : Table) (hperm : t₁.Perm t₂) (hlen : t₁.length ≤ sample_size) :
    calculate_table_checksum md5 t₁ sample_size =
      calculate_table_checksum md5 t₂ sample_size := by
  haveI : IsTotal String strLEP := ⟨fun a b => charsLE_total a.data b.data⟩
  haveI : IsTrans String strLEP := ⟨fun a b c => charsLE_trans a.data b.data c.data⟩
  haveI : IsAntisymm String strLEP := ⟨fun a b h₁ h₂ => by
    cases a with
    | mk da =>
      cases b with
      | mk db => exact congrArg String.mk (charsLE_antisymm da db h₁ h₂)⟩
  have hl₁ : (List.insertionSort rowLE t₁).length ≤ sample_size := by
    rw [(List.perm_insertionSort rowLE t₁).length_eq]
    exact hlen
  have hl₂ : (List.insertionSort rowLE t₂).length ≤ sample_size := by
    rw [(List.perm_insertionSort rowLE t₂).length_eq, ← hperm.length_eq]
    exact hlen
  have hp : (sampledRowStrings t₁ sample_size).Perm (sampledRowStrings t₂ sample_size) := by
    unfold sampledRowStrings
    rw [List.take_of_length_le hl₁, List.take_of_length_le hl₂]
    exact ((List.perm_insertionSort rowLE t₁).trans
      (hperm.trans (List.perm_insertionSort rowLE t₂).symm)).map rowString
  have hsort : List.insertionSort strLEP (sampledRowStrings t₁ sample_size) =
      List.insertionSort strLEP (sampledRowStrings t₂ sample_size) :=
    List.eq_of_perm_of_sorted
      ((List.perm_insertionSort strLEP _).trans
        (hp.trans (List.perm_insertionSort strLEP _).symm))
      (List.sorted_insertionSort strLEP _)
      (List.sorted_insertionSort strLEP _)
  unfold calculate_table_checksum
  rw [hsort]

/-- Witness for C7's amended theorem: a two-row table within the default
sample bound, physically permuted, has equal checksums. -/
theorem C7_checksum_order_invariant_witness :
    ([[some "b"], [some "a"]] : Table).Perm [[some "a"], [some "b"]] ∧
    ([[some "b"], [some "a"]] : Table).length ≤ 1000 ∧
    calculate_table_checksum id [[some "b"], [some "a"]] 1000 =
      calculate_table_checksum id [[some "a"], [some "b"]] 1000 :=
  ⟨by decide, by decide,
   C7_checksum_order_invariant id 1000 _ _ (by decide) (by decide)⟩

/-- Claim C8. Migrating an empty source table (into a destination where
the table is absent and therefore created empty) returns success with
zero migrated rows, and validating the resulting pair passes: counts are
0 = 0, both checksums are the empty-aggregate value `''`, and both
5-row samples are empty. Holds for every batch size, every `max_rows`
cap, and every digest function. -/
theorem C8_empty_table (md5 : String → String) (batch_size : Nat)
    (max_rows : Option Nat) :
    (migrate_table [] none batch_size max_rows).1.success = true ∧
    (migrate_table [] none batch_size max_rows).1.rows_migrated = 0 ∧
    (validate_migration (faultFreeEnv md5 []
        (migrate_table [] none batch_size max_rows).2)).validation_passed = true := by
  have hmt : migrate_table [] none batch_size max_rows =
      ({ success := true, total_rows := 0, rows_migrated := 0, error := none }, []) := by
    cases max_rows <;> simp [migrate_table, migrateLoop]
  rw [hmt]
  refine ⟨rfl, rfl, ?_⟩
  simp [validate_migration, faultFreeEnv, get_row_count, get_sample_data,
    calculate_table_checksum, sampledRowStrings]

/-- Claim C10. `calculate_table_checksum` renders a NULL cell and a cell
holding the literal text `NULL` as the same row-string
(`COALESCE(CAST(col AS TEXT), 'NULL')`), so a single-NULL table and a
single-`'NULL'`-text table — different data — have equal checksums for
any digest function, and the validator's checksum check on that pair
records `match = true`. -/
theorem C10_null_text_collision (md5 : String → String) :
    rowString [none] = rowString [some "NULL"] ∧
    calculate_table_checksum md5 [[none]] 1000 =
      calculate_table_checksum md5 [[some "NULL"]] 1000 ∧
    (validate_migration (faultFreeEnv md5 [[none]] [[some "NULL"]])).checks.checksum =
      some { source := calculate_table_checksum md5 [[none]] 1000,
             destination := calculate_table_checksum md5 [[some "NULL"]] 1000,
             is_match := true } ∧
    ([[none]] : Table) ≠ [[some "NULL"]] := by
  refine ⟨rfl, rfl, ?_, by decide⟩
  simp [validate_migration, faultFreeEnv, get_row_count, get_sample_data]
  rfl

/-- Claim C3, counterexample. An exception raised by the schema
table-listing call (`get_tables`) does not mark the run `failed`: it is
caught by `_migrate_schema`'s own `except`, recorded only in the schema
result's `error` field (which `run` never copies), and the run then
completes with zero failed tables, i.e. with status
`completed_success`. -/
theorem C3_listing_error_swallowed :
    (ExecutionAgent.run [("public", Except.error "schema listing failed")]
        (Except.ok ())).status = "completed_success" ∧
    (ExecutionAgent.run [("public", Except.error "schema listing failed")]
        (Except.ok ())).status ≠ "failed" ∧
    (ExecutionAgent.run [("public", Except.error "schema listing failed")]
        (Except.ok ())).error = none := by
  decide

/-- Claim C3, amended. An exception escaping the schema-level handling —
i.e. one raised after the per-schema loop, such as by the final-report
generation — marks the entire run `failed` with the error recorded; an
exception from the schema table-listing call itself is instead caught by
the per-schema handler, and the run's status is still determined by the
failed-table count (`completed_success` when no table failed). -/
theorem C3_run_failure_scope
    (schemas : List (String × Except String (List TableJob))) (e : String) :
    (ExecutionAgent.run schemas (Except.error e)).status = "failed" ∧
    (ExecutionAgent.run schemas (Except.error e)).error = some e ∧
    ∀ schema msg,
      (ExecutionAgent.run [(schema, Except.error msg)] (Except.ok ())).status =
        "completed_success" := by
  refine ⟨rfl, rfl, fun schema msg => ?_⟩
  simp [ExecutionAgent.run, ExecutionAgent.migrate_schema, accumulateSchema,
    runInit, emptySchemaResult]

/-- Claim C4. While the workflow status is `running`, a start request
fails with the `AlreadyRunningError` response, leaves the state
unchanged and starts no second background run; and whenever the status
is not `awaiting_approval`, an approval/execution request fails with the
`WorkflowStateError` response, leaves the state unchanged and starts no
execution. -/
theorem C4_gate_enforcement (s : AppState) :
    (s.configured = true → s.workflow_status = "running" →
      start_workflow s = (s, some ApiError.alreadyRunning, false)) ∧
    (s.workflow_status ≠ "awaiting_approval" →
      approve_workflow s = (s, some ApiError.workflowState, false)) := by
  constructor
  · intro hc hr
    simp [start_workflow, hc, hr]
  · intro hn
    simp [approve_workflow, hn]

/-- Witness for C4: on a concrete configured, running state both gates
reject as stated. -/
theorem C4_gate_enforcement_witness :
    runningState.configured = true ∧
    runningState.workflow_status = "running" ∧
    runningState.workflow_status ≠ "awaiting_approval" ∧
    start_workflow runningState = (runningState, some ApiError.alreadyRunning, false) ∧
    approve_workflow runningState = (runningState, some ApiError.workflowState, false) :=
  ⟨rfl, rfl, by decide,
   (C4_gate_enforcement runningState).1 rfl rfl,
   (C4_gate_enforcement runningState).2 (by decide)⟩

/-- Claim C5, counterexample. A run that completes its per-table loop
with zero failed tables does not always end `completed_success`: the
final-report generation runs inside the same `try`, so when it raises,
the `except` overwrites the already-determined status with `failed` even
though `failed_tables = 0`. -/
theorem C5_report_error_overrides_status :
    (ExecutionAgent.run [("public", Except.ok [jobB])]
        (Except.error "GPTe session lost")).failed_tables = 0 ∧
    (ExecutionAgent.run [("public", Except.ok [jobB])]
        (Except.error "GPTe session lost")).successful_tables = 1 ∧
    (ExecutionAgent.run [("public", Except.ok [jobB])]
        (Except.error "GPTe session lost")).status = "failed" ∧
    (ExecutionAgent.run [("public", Except.ok [jobB])]
        (Except.error "GPTe session lost")).status ≠ "completed_success" := by
  decide

/-- Claim C5, amended. For every run that completes the per-table loop
and whose final-report generation does not raise, the overall status is
`completed_success` iff the failed-table count is zero and
`completed_with_errors` otherwise; and in a run over one schema holding a
table `a` that exhausts its retries and a table `b` that succeeds, the
run ends `completed_with_errors` with `failed_tables = 1`,
`successful_tables = 1`, and the total migrated row count is exactly
`b`'s migrated row count, unaffected by `a`. -/
theorem C5_status_from_failed_count
    (schemas : List (String × Except String (List TableJob)))
    (a b : TableJob) (nB : Nat)
    (hA : (migrateTableWithRetry a.attempts).1.success = false)
    (hB : (migrateTableWithRetry b.attempts).1.success = true)
    (hRows : (migrateTableWithRetry b.attempts).1.rows_migrated = nB) :
    ((ExecutionAgent.run schemas (Except.ok ())).status = "completed_success" ↔
      (ExecutionAgent.run schemas (Except.ok ())).failed_tables = 0) ∧
    ((ExecutionAgent.run schemas (Except.ok ())).status = "completed_with_errors" ↔
      ¬ (ExecutionAgent.run schemas (Except.ok ())).failed_tables = 0) ∧
    (ExecutionAgent.run [("public", Except.ok [a, b])] (Except.ok ())).status =
      "completed_with_errors" ∧
    (ExecutionAgent.run [("public", Except.ok [a, b])] (Except.ok ())).failed_tables = 1 ∧
    (ExecutionAgent.run [("public", Except.ok [a, b])] (Except.ok ())).successful_tables = 1 ∧
    (ExecutionAgent.run [("public", Except.ok [a, b])] (Except.ok ())).total_rows_migrated =
      nB := by
  refine ⟨?_, ?_, ?_⟩
  · by_cases h : (schemas.foldl
        (fun acc s => accumulateSchema acc (ExecutionAgent.migrate_schema s.1 s.2))
        runInit).failed_tables = 0 <;>
      simp [ExecutionAgent.run, h]
  · by_cases h : (schemas.foldl
        (fun acc s => accumulateSchema acc (ExecutionAgent.migrate_schema s.1 s.2))
        runInit).failed_tables = 0 <;>
      simp [ExecutionAgent.run, h]
  · simp [ExecutionAgent.run, ExecutionAgent.migrate_schema, processTable,
      accumulateSchema, runInit, emptySchemaResult, hA, hB, hRows]

/-- Witness for C5's amended theorem: the concrete failure-isolation
scenario with `jobA` (all attempts raise) and `jobB` (succeeds with 7
rows). -/
theorem C5_status_from_failed_count_witness :
    (migrateTableWithRetry jobA.attempts).1.success = false ∧
    (migrateTableWithRetry jobB.attempts).1.success = true ∧
    (migrateTableWithRetry jobB.attempts).1.rows_migrated = 7 ∧
    (((ExecutionAgent.run [] (Except.ok ())).status = "completed_success" ↔
        (ExecutionAgent.run [] (Except.ok ())).failed_tables = 0) ∧
      ((ExecutionAgent.run [] (Except.ok ())).status = "completed_with_errors" ↔
        ¬ (ExecutionAgent.run [] (Except.ok ())).failed_tables = 0) ∧
      (ExecutionAgent.run [("public", Except.ok [jobA, jobB])] (Except.ok ())).status =
        "completed_with_errors" ∧
      (ExecutionAgent.run [("public", Except.ok [jobA, jobB])]
          (Except.ok ())).failed_tables = 1 ∧
      (ExecutionAgent.run [("public", Except.ok [jobA, jobB])]
          (Except.ok ())).successful_tables = 1 ∧
      (ExecutionAgent.run [("public", Except.ok [jobA, jobB])]
          (Except.ok ())).total_rows_migrated = 7) :=
  ⟨by decide, by decide, by decide,
   C5_status_from_failed_count [] jobA jobB 7 (by decide) (by decide) (by decide)⟩

/-- Claim C6. A table whose transfer fails on the first attempt (either
by raising or by returning an unsuccessful result) and succeeds on the
second is returned with the successful attempt's result together with
exactly one retry log event and exactly one backoff sleep, and the
per-schema loop records it as migrated with that result's row count. -/
theorem C6_retry_then_success (name : String) (v : ValidationResult)
    (attempts : Nat → AttemptOutcome) (res : MigrationResult)
    (h0 : (∃ msg, attempts 0 = .raises msg) ∨
          (∃ r, attempts 0 = .returns r ∧ r.success = false))
    (h1 : attempts 1 = .returns res) (hres : res.success = true) :
    migrateTableWithRetry attempts = (res, 1, 1) ∧
    (ExecutionAgent.migrate_schema "public"
        (Except.ok [{ name := name, attempts := attempts, validation := v }])).tables_migrated
      = ["public" ++ "." ++ name] ∧
    (ExecutionAgent.migrate_schema "public"
        (Except.ok [{ name := name, attempts := attempts, validation := v }])).total_rows_migrated
      = res.rows_migrated := by
  have hrange : List.range max_retries = [0, 1] := rfl
  have hloop : migrateTableWithRetry attempts = (res, 1, 1) := by
    rcases h0 with ⟨msg, hm⟩ | ⟨r, hr, hrf⟩
    · simp [migrateTableWithRetry, hrange, retryLoop, hm, h1, hres, max_retries]
    · simp [migrateTableWithRetry, hrange, retryLoop, hr, hrf, h1, hres, max_retries]
  refine ⟨hloop, ?_, ?_⟩ <;>
    simp [ExecutionAgent.migrate_schema, processTable, emptySchemaResult, hloop, hres]

/-- Witness for C6: the concrete raise-then-succeed transfer
`raisesThenSucceeds`. -/
theorem C6_retry_then_success_witness :
    raisesThenSucceeds 0 = .raises "deadlock detected" ∧
    raisesThenSucceeds 1 =
      .returns { success := true, total_rows := 4, rows_migrated := 4, error := none } ∧
    migrateTableWithRetry raisesThenSucceeds =
      ({ success := true, total_rows := 4, rows_migrated := 4, error := none }, 1, 1) :=
  ⟨rfl, rfl,
   (C6_retry_then_success "users" passedValidation raisesThenSucceeds _
      (.inl ⟨"deadlock detected", rfl⟩) rfl rfl).1⟩

/-- Claim C9, counterexample. A reset after a deny decision returns to
idle and clears results and logs, but it does not clear the recorded
approval decision: the stored generation agent — with the denial still
recorded on it — survives the reset untouched. -/
theorem C9_decision_survives_reset :
    (reset_workflow deniedState).2 = true ∧
    (reset_workflow deniedState).1.workflow_status = "idle" ∧
    (reset_workflow deniedState).1.results = emptyResults ∧
    (reset_workflow deniedState).1.logs = [] ∧
    (reset_workflow deniedState).1.generation_agent =
      some { human_decision := some { approved := false, reason := "too risky" } } ∧
    (reset_workflow deniedState).1.generation_agent ≠
      some { human_decision := none } := by
  decide

/-- Claim C9, amended. From every workflow state the reset operation
succeeds and returns to idle with the current agent cleared, all
per-phase results cleared (both the app's results dictionary and the
orchestrator's per-phase statuses and results), and all logs cleared; the
stored generation agent, and with it any recorded human approval
decision, is left unchanged (it is only replaced when a later generation
phase stores a fresh agent). -/
theorem C9_reset_behavior (s : AppState) :
    (reset_workflow s).2 = true ∧
    (reset_workflow s).1.workflow_status = "idle" ∧
    (reset_workflow s).1.current_agent = none ∧
    (reset_workflow s).1.results = emptyResults ∧
    (reset_workflow s).1.logs = [] ∧
    (reset_workflow s).1.orchestrator = s.orchestrator.map AgentOrchestrator.reset_workflow ∧
    (reset_workflow s).1.generation_agent = s.generation_agent := by
  simp [reset_workflow]

end DBMigrate
